import Mathlib

/-!
# Environmental monitoring system — verification of the acquisition pipeline

A shallow embedding, in Lean 4, of the sensor-to-packet pipeline of the
environmental monitoring firmware: per-sensor readers (gas, UV, dust,
BME280, RTC), the packet assembler and compact encoder of the sender's
main loop, the receiver's compact-to-full decoder, and the CSV logger.

Numbers are modelled as rationals (the firmware works in Python floats;
every constant in the source is a short decimal, so rational arithmetic
is the intended exact semantics).  Python `int()` truncation and
`round(x, 2)` (banker's rounding to two decimals) are modelled
explicitly.  Fallible operations (Python exceptions) are modelled with
`Option`.
-/

/-- Floor of a rational, computed on the numerator and denominator so that
kernel reduction (`decide`) can evaluate it. -/
def ratFloor (q : ℚ) : ℤ :=
  q.num / (q.den : ℤ)

/-- Python `int()` applied to a float/rational: truncation toward zero. -/
def pyInt (q : ℚ) : ℤ :=
  if q < 0 then -ratFloor (-q) else ratFloor q

/-- Round half to even on a rational, modelling Python's `round(x)` tie rule. -/
def roundHalfEven (x : ℚ) : ℤ :=
  let f := ratFloor x
  let r := x - (f : ℚ)
  if r < 1/2 then f
  else if 1/2 < r then f + 1
  else if f % 2 = 0 then f else f + 1

/-- Python `round(x, 2)`: round to two decimal places (ties to even). -/
def round2 (x : ℚ) : ℚ :=
  (roundHalfEven (x * 100) : ℚ) / 100

/-! ## dust_sensor.py -/

/-- `calculate_aqi` from dust_sensor.py: EPA-style piecewise-linear AQI
from dust density (µg/m³), each band truncated with Python `int()`. -/
def calculate_aqi (dust_density : ℚ) : ℤ :=
  if dust_density ≤ 12 then
    pyInt ((dust_density / 12) * 50)
  else if dust_density ≤ 35.4 then
    pyInt (((dust_density - 12.1) / (35.4 - 12.1)) * (100 - 51) + 51)
  else if dust_density ≤ 55.4 then
    pyInt (((dust_density - 35.5) / (55.4 - 35.5)) * (150 - 101) + 101)
  else if dust_density ≤ 150.4 then
    pyInt (((dust_density - 55.5) / (150.4 - 55.5)) * (200 - 151) + 151)
  else if dust_density ≤ 250.4 then
    pyInt (((dust_density - 150.5) / (250.4 - 150.5)) * (300 - 201) + 201)
  else if dust_density ≤ 500.4 then
    pyInt (((dust_density - 250.5) / (500.4 - 250.5)) * (500 - 301) + 301)
  else
    500

/-- `get_health_level` from dust_sensor.py: health label from AQI. -/
def get_health_level (aqi : ℤ) : String :=
  if aqi ≤ 50 then "Good"
  else if aqi ≤ 100 then "Moderate"
  else if aqi ≤ 150 then "Unhealthy for Sensitive Groups"
  else if aqi ≤ 200 then "Unhealthy"
  else if aqi ≤ 300 then "Very Unhealthy"
  else if aqi ≤ 500 then "Hazardous"
  else "Beyond AQI Scale"

/-- Output record of `read_dust_sensor` (dust_sensor.py). -/
structure DustData where
  Raw_ADC : ℕ
  Voltage : ℚ
  Dust_Density : ℚ
  AQI : ℤ
  Health_Level : String
deriving DecidableEq, Repr

/-- `read_dust_sensor` from dust_sensor.py, as a function of the raw ADC
count `vo_measured` returned by the hardware (the LED-pulse timing has no
effect on the computed values). -/
def read_dust_sensor (vo_measured : ℕ) : DustData :=
  let calc_voltage : ℚ := ((vo_measured : ℚ) / 4095) * 5
  let dust_density : ℚ := max (170 * calc_voltage - 0.1) 0
  let aqi := calculate_aqi dust_density
  let health_level := get_health_level aqi
  { Raw_ADC := vo_measured
    Voltage := calc_voltage
    Dust_Density := dust_density
    AQI := aqi
    Health_Level := health_level }

/-! ## mq.py -/

/-- Clean-air calibration constant for the MQ-9 sensor (mq.py). -/
def R0_MQ9 : ℚ := 0.49

/-- Clean-air calibration constant for the MQ-135 sensor (mq.py). -/
def R0_MQ135 : ℚ := 5.29

/-- `calculate_concentration_mq9` from mq.py: step function from the
normalized resistance ratio to a gas concentration (ppm). -/
def calculate_concentration_mq9 (ratio : ℚ) (gas : String) : ℤ :=
  if gas = "LPG" then
    if ratio > 1.8 then 200
    else if ratio > 1.0 then 1000
    else if ratio > 0.6 then 5000
    else 10000
  else if gas = "CO" then
    if ratio > 2.2 then 100
    else if ratio > 1.2 then 200
    else if ratio > 0.8 then 400
    else 1000
  else if gas = "CH4" then
    if ratio > 1.7 then 200
    else if ratio > 1.0 then 500
    else if ratio > 0.7 then 1000
    else 5000
  else 0

/-- `calculate_concentration_mq135` from mq.py: step function from the
normalized resistance ratio to a gas concentration (ppm). -/
def calculate_concentration_mq135 (ratio : ℚ) (gas : String) : ℤ :=
  if gas = "CO2" then
    if ratio > 3.5 then 10
    else if ratio > 2.5 then 20
    else if ratio > 1.5 then 100
    else if ratio > 1.0 then 200
    else 500
  else if gas = "CO" then
    if ratio > 2.5 then 10
    else if ratio > 1.8 then 20
    else if ratio > 1.2 then 100
    else if ratio > 0.8 then 200
    else 500
  else if gas = "NH4" then
    if ratio > 2.2 then 10
    else if ratio > 1.5 then 50
    else if ratio > 1.0 then 100
    else 200
  else if gas = "Ethanol" then
    if ratio > 2.0 then 10
    else if ratio > 1.5 then 50
    else if ratio > 1.0 then 100
    else 300
  else if gas = "Toluene" then
    if ratio > 1.8 then 10
    else if ratio > 1.2 then 50
    else if ratio > 0.9 then 100
    else 200
  else if gas = "Acetone" then
    if ratio > 1.5 then 10
    else if ratio > 1.0 then 50
    else if ratio > 0.7 then 100
    else 300
  else 0

/-- The `MQ-9` entry of the dictionary returned by `read_sensors` (mq.py).
The `Rs/R0` key is spelled `RsR0`. -/
structure Mq9Data where
  Raw_ADC : ℕ
  Voltage : ℚ
  RsR0 : ℚ
  LPG : ℤ
  CO : ℤ
  CH4 : ℤ
deriving DecidableEq, Repr

/-- The `MQ-135` entry of the dictionary returned by `read_sensors` (mq.py). -/
structure Mq135Data where
  Raw_ADC : ℕ
  Voltage : ℚ
  RsR0 : ℚ
  CO2 : ℤ
  CO : ℤ
  NH4 : ℤ
  Ethanol : ℤ
  Toluene : ℤ
  Acetone : ℤ
deriving DecidableEq, Repr

/-- The full dictionary returned by `read_sensors` (mq.py). -/
structure MqData where
  mq9 : Mq9Data
  mq135 : Mq135Data
deriving DecidableEq, Repr

/-- `read_sensors` from mq.py, as a function of the two raw ADC counts
returned by the hardware (12-bit, 0–4095). -/
def read_sensors (adc_mq9 adc_mq135 : ℕ) : MqData :=
  let sensor_voltage_mq9 : ℚ := ((adc_mq9 : ℚ) / 4095) * 3.3
  let rs_gas_mq9 : ℚ :=
    if sensor_voltage_mq9 > 0 then (3.3 - sensor_voltage_mq9) / sensor_voltage_mq9 else 0
  let ratio_mq9 : ℚ := if rs_gas_mq9 > 0 then rs_gas_mq9 / R0_MQ9 else 0
  let sensor_voltage_mq135 : ℚ := ((adc_mq135 : ℚ) / 4095) * 3.3
  let rs_gas_mq135 : ℚ :=
    if sensor_voltage_mq135 > 0 then (3.3 - sensor_voltage_mq135) / sensor_voltage_mq135 else 0
  let ratio_mq135 : ℚ := if rs_gas_mq135 > 0 then rs_gas_mq135 / R0_MQ135 else 0
  { mq9 :=
      { Raw_ADC := adc_mq9
        Voltage := sensor_voltage_mq9
        RsR0 := ratio_mq9
        LPG := calculate_concentration_mq9 ratio_mq9 "LPG"
        CO := calculate_concentration_mq9 ratio_mq9 "CO"
        CH4 := calculate_concentration_mq9 ratio_mq9 "CH4" }
    mq135 :=
      { Raw_ADC := adc_mq135
        Voltage := sensor_voltage_mq135
        RsR0 := ratio_mq135
        CO2 := calculate_concentration_mq135 ratio_mq135 "CO2"
        CO := calculate_concentration_mq135 ratio_mq135 "CO"
        NH4 := calculate_concentration_mq135 ratio_mq135 "NH4"
        Ethanol := calculate_concentration_mq135 ratio_mq135 "Ethanol"
        Toluene := calculate_concentration_mq135 ratio_mq135 "Toluene"
        Acetone := calculate_concentration_mq135 ratio_mq135 "Acetone" }}

/-! ## uv.py -/

/-- `map_float` from uv.py: Arduino-style linear map for floats. -/
def map_float (x in_min in_max out_min out_max : ℚ) : ℚ :=
  (x - in_min) * (out_max - out_min) / (in_max - in_min) + out_min

/-- The dictionary returned by `read_uv_sensor` (uv.py).  `Raw_ADC` is the
float average of the eight samples, kept as a rational. -/
structure UvData where
  Raw_ADC : ℚ
  Voltage : ℚ
  UV_Intensity : ℚ
  UV_Index : ℚ
deriving DecidableEq, Repr

/-- `read_uv_sensor` from uv.py, as a function of the sequence of raw ADC
counts produced by the eight successive hardware reads. -/
def read_uv_sensor (adc : ℕ → ℕ) : UvData :=
  let number_of_readings : ℕ := 8
  let running_value : ℚ :=
    (List.range number_of_readings).foldl (fun acc i => acc + (adc i : ℚ)) 0
  let uv_level : ℚ := running_value / (number_of_readings : ℚ)
  let output_voltage : ℚ := uv_level * (3.3 / 4095)
  let uv_intensity0 : ℚ := map_float output_voltage 0.99 2.8 0 15
  let uv_intensity : ℚ := if uv_intensity0 < 0 then 0 else uv_intensity0
  let uv_index : ℚ := uv_intensity / 0.1
  { Raw_ADC := uv_level
    Voltage := output_voltage
    UV_Intensity := uv_intensity
    UV_Index := uv_index }

/-! ## bme.py -/

/-- Digits of a decimal string, folded into a natural number. -/
def digitsVal (cs : List Char) : ℕ :=
  cs.foldl (fun a c => a * 10 + (c.toNat - 48)) 0

/-- An unsigned decimal literal `digits [. digits]`, parsed into a rational;
`none` on anything else. -/
def parseUnsignedDec (cs : List Char) : Option ℚ :=
  let intPart := cs.takeWhile Char.isDigit
  let rest := cs.dropWhile Char.isDigit
  if rest.isEmpty then
    if intPart.isEmpty then none else some (digitsVal intPart : ℚ)
  else if rest.head? = some '.' then
    let frac := rest.tail
    if frac.all Char.isDigit && !(intPart.isEmpty && frac.isEmpty) then
      some ((digitsVal intPart : ℚ) + (digitsVal frac : ℚ) / 10 ^ frac.length)
    else none
  else none

/-- Modelled from the builtin: Python `float(s)` on a plain decimal literal
(optional sign, integer digits, optional fraction), returning `none` where
the builtin raises `ValueError`.  Exponents, infinities, NaN and surrounding
whitespace never occur in the strings the firmware parses, so they are not
modelled. -/
def pyFloat (s : String) : Option ℚ :=
  let cs := s.toList
  if cs.head? = some '-' then (parseUnsignedDec cs.tail).map Neg.neg
  else if cs.head? = some '+' then parseUnsignedDec cs.tail
  else parseUnsignedDec cs

/-- Python's `s[:-n]`: all but the last `n` characters (empty if `n` exceeds
the length). -/
def sliceDropRight (s : String) (n : ℕ) : String :=
  ⟨s.toList.take (s.toList.length - n)⟩

/-- The dictionary returned by `read_bme280` (bme.py). -/
structure BmeData where
  Temperature : ℚ
  Pressure : ℚ
  Humidity : ℚ
deriving DecidableEq, Repr

/-- `read_bme280` from bme.py, as a function of the two driver strings
`bme.values[0]` (e.g. `"25.6C"`) and `bme.values[1]` (e.g. `"1013.2hPa"`)
and of the random humidity draw.  The function performs no error handling:
`none` models the `ValueError` that `float()` raises on an unparsable
string and that propagates to the caller. -/
def read_bme280 (values0 values1 : String) (humidity : ℚ) : Option BmeData :=
  match pyFloat (sliceDropRight values0 1), pyFloat (sliceDropRight values1 3) with
  | some temperature, some pressure =>
      some { Temperature := temperature, Pressure := pressure, Humidity := humidity }
  | _, _ => none

/-! ## rtc.py -/

/-- The dictionary returned by `get_time` (rtc.py). -/
structure RtcTime where
  year : ℕ
  month : ℕ
  day : ℕ
  hour : ℕ
  minute : ℕ
  second : ℕ
  weekday : ℕ
deriving DecidableEq, Repr

/-- `get_time` from rtc.py, as a function of the 7-tuple returned by the
DS3231 driver; indices 4, 5, 6 hold hour, minute, second and index 3 the
weekday. -/
def get_time (datetime : Fin 7 → ℕ) : RtcTime :=
  { year := datetime 0
    month := datetime 1
    day := datetime 2
    hour := datetime 4
    minute := datetime 5
    second := datetime 6
    weekday := datetime 3 }

/-! ## The canonical packet (main.py) and the compact wire record -/

/-- A dynamically-typed Python value as it appears in the packet dictionaries
and in the compact wire array: a (finite) number or a string. -/
inductive Val where
  | num (q : ℚ)
  | str (s : String)
deriving DecidableEq, Repr

/-- A leaf of the canonical packet: a value together with its unit string. -/
structure Reading where
  value : Val
  unit : String
deriving DecidableEq, Repr

/-- The `rtc` group of the canonical packet: date and time strings. -/
structure RtcGroup where
  date : Val
  time : Val
deriving DecidableEq, Repr

/-- The `mq9` group of the canonical packet. -/
structure Mq9Group where
  LPG : Reading
  CO : Reading
  CH4 : Reading
deriving DecidableEq, Repr

/-- The `mq135` group of the canonical packet. -/
structure Mq135Group where
  CO2 : Reading
  CO : Reading
  alcohol : Reading
  NH4 : Reading
  toluene : Reading
  acetone : Reading
deriving DecidableEq, Repr

/-- The `uv_sensor` group of the canonical packet. -/
structure UvGroup where
  raw_adc : Reading
  voltage : Reading
  uv_intensity : Reading
  uv_index : Reading
deriving DecidableEq, Repr

/-- The `bme280` group of the canonical packet. -/
structure BmeGroup where
  temperature : Reading
  pressure : Reading
  humidity : Reading
deriving DecidableEq, Repr

/-- The `dust_sensor` group of the canonical packet. -/
structure DustGroup where
  raw_adc : Reading
  voltage : Reading
  dust_density : Reading
  AQI : Reading
  health_level : Reading
deriving DecidableEq, Repr

/-- The canonical nested sensor packet assembled by the sender's main loop
(main.py) and reconstructed by the receiver. -/
structure SensorPacket where
  rtc : RtcGroup
  mq9 : Mq9Group
  mq135 : Mq135Group
  uv_sensor : UvGroup
  bme280 : BmeGroup
  dust_sensor : DustGroup
deriving DecidableEq, Repr

/-- Python `f"{n:02}"`: decimal rendering zero-padded to width 2. -/
def pad2 (n : ℕ) : String :=
  if n < 10 then "0" ++ toString n else toString n

/-- The `rtc_date` string built in main.py: `f"{year}/{month:02}/{day:02}"`. -/
def rtc_date (rtc : RtcTime) : String :=
  toString rtc.year ++ "/" ++ pad2 rtc.month ++ "/" ++ pad2 rtc.day

/-- The `rtc_time` string built in main.py: `f"{hour:02}:{minute:02}:{second:02}"`. -/
def rtc_time (rtc : RtcTime) : String :=
  pad2 rtc.hour ++ ":" ++ pad2 rtc.minute ++ ":" ++ pad2 rtc.second

/-- The full `sensor_packet` dictionary assembled each tick in main.py
(lines 41–77) from the five reader outputs. -/
def mkSensorPacket (rtc : RtcTime) (mq : MqData) (uv : UvData) (bme : BmeData)
    (dust : DustData) : SensorPacket :=
  { rtc :=
      { date := Val.str (rtc_date rtc)
        time := Val.str (rtc_time rtc) }
    mq9 :=
      { LPG := { value := Val.num (mq.mq9.LPG : ℚ), unit := "ppm" }
        CO := { value := Val.num (mq.mq9.CO : ℚ), unit := "ppm" }
        CH4 := { value := Val.num (mq.mq9.CH4 : ℚ), unit := "ppm" } }
    mq135 :=
      { CO2 := { value := Val.num (mq.mq135.CO2 : ℚ), unit := "ppm" }
        CO := { value := Val.num (mq.mq135.CO : ℚ), unit := "ppm" }
        alcohol := { value := Val.num (mq.mq135.Ethanol : ℚ), unit := "ppm" }
        NH4 := { value := Val.num (mq.mq135.NH4 : ℚ), unit := "ppm" }
        toluene := { value := Val.num (mq.mq135.Toluene : ℚ), unit := "ppm" }
        acetone := { value := Val.num (mq.mq135.Acetone : ℚ), unit := "ppm" } }
    uv_sensor :=
      { raw_adc := { value := Val.num uv.Raw_ADC, unit := "counts" }
        voltage := { value := Val.num (round2 (uv.Raw_ADC * 0.0008)), unit := "V" }
        uv_intensity := { value := Val.num (round2 uv.UV_Intensity), unit := "mW/cm²" }
        uv_index := { value := Val.num (round2 uv.UV_Index), unit := "index" } }
    bme280 :=
      { temperature := { value := Val.num (round2 bme.Temperature), unit := "°C" }
        pressure := { value := Val.num (round2 bme.Pressure), unit := "hPa" }
        humidity := { value := Val.num (round2 bme.Humidity), unit := "%" } }
    dust_sensor :=
      { raw_adc := { value := Val.num (dust.Raw_ADC : ℚ), unit := "counts" }
        voltage := { value := Val.num (round2 ((dust.Raw_ADC : ℚ) * (1 / 820))), unit := "V" }
        dust_density := { value := Val.num (round2 dust.Dust_Density), unit := "µg/m³" }
        AQI := { value := Val.num (dust.AQI : ℚ), unit := "AQI" }
        health_level := { value := Val.str dust.Health_Level, unit := "" } } }

/-- The 23-element `send_array` built each tick in main.py (lines 87–111),
in the fixed positional order of the compact wire format. -/
def mkSendArray (rtc : RtcTime) (mq : MqData) (uv : UvData) (bme : BmeData)
    (dust : DustData) : List Val :=
  [ Val.str (rtc_date rtc),
    Val.str (rtc_time rtc),
    Val.num (mq.mq9.LPG : ℚ),
    Val.num (mq.mq9.CO : ℚ),
    Val.num (mq.mq9.CH4 : ℚ),
    Val.num (mq.mq135.CO2 : ℚ),
    Val.num (mq.mq135.CO : ℚ),
    Val.num (mq.mq135.Ethanol : ℚ),
    Val.num (mq.mq135.NH4 : ℚ),
    Val.num (mq.mq135.Toluene : ℚ),
    Val.num (mq.mq135.Acetone : ℚ),
    Val.num uv.Raw_ADC,
    Val.num (round2 (uv.Raw_ADC * 0.0008)),
    Val.num (round2 uv.UV_Intensity),
    Val.num (round2 uv.UV_Index),
    Val.num (round2 bme.Temperature),
    Val.num (round2 bme.Pressure),
    Val.num (round2 bme.Humidity),
    Val.num (dust.Raw_ADC : ℚ),
    Val.num (round2 ((dust.Raw_ADC : ℚ) * (1 / 820))),
    Val.num (round2 dust.Dust_Density),
    Val.num (dust.AQI : ℚ),
    Val.str dust.Health_Level ]

/-- `convert_compact_to_full` from reciever/main.py: rebuilds the canonical
nested packet from the 23-element compact array, re-attaching the fixed unit
strings.  Indexing past the end of the list would raise `IndexError` in
Python, modelled by `none`. -/
def convert_compact_to_full (compact : List Val) : Option SensorPacket :=
  if h : 23 ≤ compact.length then
    let g : Fin 23 → Val := fun i => compact.get ⟨(i : ℕ), lt_of_lt_of_le i.isLt h⟩
    some
      { rtc := { date := g 0, time := g 1 }
        mq9 :=
          { LPG := { value := g 2, unit := "ppm" }
            CO := { value := g 3, unit := "ppm" }
            CH4 := { value := g 4, unit := "ppm" } }
        mq135 :=
          { CO2 := { value := g 5, unit := "ppm" }
            CO := { value := g 6, unit := "ppm" }
            alcohol := { value := g 7, unit := "ppm" }
            NH4 := { value := g 8, unit := "ppm" }
            toluene := { value := g 9, unit := "ppm" }
            acetone := { value := g 10, unit := "ppm" } }
        uv_sensor :=
          { raw_adc := { value := g 11, unit := "counts" }
            voltage := { value := g 12, unit := "V" }
            uv_intensity := { value := g 13, unit := "mW/cm²" }
            uv_index := { value := g 14, unit := "index" } }
        bme280 :=
          { temperature := { value := g 15, unit := "°C" }
            pressure := { value := g 16, unit := "hPa" }
            humidity := { value := g 17, unit := "%" } }
        dust_sensor :=
          { raw_adc := { value := g 18, unit := "counts" }
            voltage := { value := g 19, unit := "V" }
            dust_density := { value := g 20, unit := "µg/m³" }
            AQI := { value := g 21, unit := "AQI" }
            health_level := { value := g 22, unit := "" } } }
  else none

/-! ## sd_card_logging.py -/

/-- The header line written by `create_new_csv` (sd_card_logging.py,
lines 52–57): 23 comma-separated column names ending in `Dust_health_level`. -/
def csv_header : String :=
  "date,time,MQ9_LPG,MQ9_CO,MQ9_CH4,MQ135_CO2,MQ135_CO,MQ135_alcohol,MQ135_NH4,MQ135_toluene,MQ135_acetone,UV_raw_adc,UV_voltage,UV_uv_intensity,UV_uv_index,BME280_temperature,BME280_pressure,BME280_humidity,Dust_raw_adc,Dust_voltage,Dust_dust_density,Dust_AQI,Dust_health_level\n"

/-- Python `str()` of a packet value, as used when `str.format` renders a
CSV cell.  Exact float formatting is irrelevant to the properties proved
here; integers and simple rationals render without commas. -/
def valCell (v : Val) : String :=
  match v with
  | .num q => toString q
  | .str s => s

/-- The 23 values extracted from the packet by `log_to_csv`
(sd_card_logging.py, lines 72–105), rendered as cells, in the order they
are passed to `str.format` on line 107. -/
def log_to_csv_args (p : SensorPacket) : List String :=
  [ valCell p.rtc.date,
    valCell p.rtc.time,
    valCell p.mq9.LPG.value,
    valCell p.mq9.CO.value,
    valCell p.mq9.CH4.value,
    valCell p.mq135.CO2.value,
    valCell p.mq135.CO.value,
    valCell p.mq135.alcohol.value,
    valCell p.mq135.NH4.value,
    valCell p.mq135.toluene.value,
    valCell p.mq135.acetone.value,
    valCell p.uv_sensor.raw_adc.value,
    valCell p.uv_sensor.voltage.value,
    valCell p.uv_sensor.uv_intensity.value,
    valCell p.uv_sensor.uv_index.value,
    valCell p.bme280.temperature.value,
    valCell p.bme280.pressure.value,
    valCell p.bme280.humidity.value,
    valCell p.dust_sensor.raw_adc.value,
    valCell p.dust_sensor.voltage.value,
    valCell p.dust_sensor.dust_density.value,
    valCell p.dust_sensor.AQI.value,
    valCell p.dust_sensor.health_level.value ]

/-- The row string produced by line 107 of sd_card_logging.py.  The format
string there contains only 22 placeholders, so Python's `str.format`
renders the first 22 of the 23 arguments and silently ignores the last
one (`dust_health_level`). -/
def log_row (p : SensorPacket) : String :=
  String.intercalate "," ((log_to_csv_args p).take 22) ++ "\n"

/-- Split a character list at commas (structural recursion, used to count
the fields of a CSV line). -/
def splitCommas (cs : List Char) : List (List Char) :=
  match cs with
  | [] => [[]]
  | c :: rest =>
      let r := splitCommas rest
      if c = ',' then [] :: r
      else
        match r with
        | [] => [[c]]
        | h :: t => (c :: h) :: t

/-- Number of comma-separated fields of a CSV line. -/
def csvFieldCount (s : String) : ℕ :=
  (splitCommas s.toList).length

/-- The mutable module state of sd_card_logging.py that `log_to_csv`
reads or could write: the `sd_available` flag and the current
`csv_filename`. -/
structure SdState where
  sd_available : Bool
  csv_filename : Option String
deriving DecidableEq, Repr

/-- Observable outcome of one `log_to_csv` call. -/
structure LogResult where
  raised : Bool
  attempted : Bool
  written : Option String
  state : SdState
deriving DecidableEq, Repr

/-- `log_to_csv` from sd_card_logging.py as a state transformer.  The
environment input `writeOk` tells whether the `open`/`write` on the SD
card succeeds (`false` models an `OSError`, e.g. the medium was removed
mid-run).  When `sd_available` is false the call returns at the guard;
otherwise it builds the row and attempts the append; any failure is
caught by the bare `except`, which only prints — no global variable is
assigned on any path. -/
def log_to_csv (st : SdState) (writeOk : Bool) (p : SensorPacket) : LogResult :=
  if st.sd_available = false then
    { raised := false, attempted := false, written := none, state := st }
  else if writeOk then
    { raised := false, attempted := true, written := some (log_row p), state := st }
  else
    { raised := false, attempted := true, written := none, state := st }

/-- A concrete sensor packet with all-zero readings (its shape is the one
`mkSensorPacket` always produces). -/
def packet0 : SensorPacket :=
  { rtc := { date := Val.str "2025/02/12", time := Val.str "09:55:29" }
    mq9 :=
      { LPG := { value := Val.num 0, unit := "ppm" }
        CO := { value := Val.num 0, unit := "ppm" }
        CH4 := { value := Val.num 0, unit := "ppm" } }
    mq135 :=
      { CO2 := { value := Val.num 0, unit := "ppm" }
        CO := { value := Val.num 0, unit := "ppm" }
        alcohol := { value := Val.num 0, unit := "ppm" }
        NH4 := { value := Val.num 0, unit := "ppm" }
        toluene := { value := Val.num 0, unit := "ppm" }
        acetone := { value := Val.num 0, unit := "ppm" } }
    uv_sensor :=
      { raw_adc := { value := Val.num 0, unit := "counts" }
        voltage := { value := Val.num 0, unit := "V" }
        uv_intensity := { value := Val.num 0, unit := "mW/cm²" }
        uv_index := { value := Val.num 0, unit := "index" } }
    bme280 :=
      { temperature := { value := Val.num 0, unit := "°C" }
        pressure := { value := Val.num 0, unit := "hPa" }
        humidity := { value := Val.num 0, unit := "%" } }
    dust_sensor :=
      { raw_adc := { value := Val.num 0, unit := "counts" }
        voltage := { value := Val.num 0, unit := "V" }
        dust_density := { value := Val.num 0, unit := "µg/m³" }
        AQI := { value := Val.num 0, unit := "AQI" }
        health_level := { value := Val.str "Good", unit := "" } } }

/-! ## Spec-side band-lookup semantics for the gas concentration tables -/

/-- Spec-side semantics of a gas concentration table: an ordered list of
(exclusive lower threshold, value) pairs evaluated highest-to-lowest, with
a base value once every threshold fails.  A ratio exactly equal to a
threshold does not exceed it, so it falls through to the next (higher
concentration) band. -/
def stepLookup : List (ℚ × ℤ) → ℤ → ℚ → ℤ
  | [], base, _ => base
  | (t, v) :: rest, base, r => if r > t then v else stepLookup rest base r

/-- The documented MQ-9 band table: thresholds and step values per gas,
with the base (lowest-ratio) value second; unsupported gases map to the
empty table with base 0. -/
def mq9Bands (gas : String) : List (ℚ × ℤ) × ℤ :=
  if gas = "LPG" then ([(1.8, 200), (1.0, 1000), (0.6, 5000)], 10000)
  else if gas = "CO" then ([(2.2, 100), (1.2, 200), (0.8, 400)], 1000)
  else if gas = "CH4" then ([(1.7, 200), (1.0, 500), (0.7, 1000)], 5000)
  else ([], 0)

/-- The documented MQ-135 band table, in the same shape as `mq9Bands`. -/
def mq135Bands (gas : String) : List (ℚ × ℤ) × ℤ :=
  if gas = "CO2" then ([(3.5, 10), (2.5, 20), (1.5, 100), (1.0, 200)], 500)
  else if gas = "CO" then ([(2.5, 10), (1.8, 20), (1.2, 100), (0.8, 200)], 500)
  else if gas = "NH4" then ([(2.2, 10), (1.5, 50), (1.0, 100)], 200)
  else if gas = "Ethanol" then ([(2.0, 10), (1.5, 50), (1.0, 100)], 300)
  else if gas = "Toluene" then ([(1.8, 10), (1.2, 50), (0.9, 100)], 200)
  else if gas = "Acetone" then ([(1.5, 10), (1.0, 50), (0.7, 100)], 300)
  else ([], 0)

/-- Concrete RTC reading used in closed instances below. -/
def rtc0 : RtcTime :=
  { year := 2025, month := 2, day := 12, hour := 9, minute := 55, second := 29, weekday := 3 }

/-- Concrete BME280 reading used in closed instances below. -/
def bme0 : BmeData :=
  { Temperature := 25.6, Pressure := 1013.2, Humidity := 24 }

/-! ## Basic lemmas for the numeric primitives -/

theorem ratFloor_eq_floor (q : ℚ) : ratFloor q = ⌊q⌋ := by
  rw [ratFloor, Rat.floor_def]

/-- On non-negative arguments Python `int()` agrees with the floor. -/
theorem pyInt_eq_floor {q : ℚ} (h : 0 ≤ q) : pyInt q = ⌊q⌋ := by
  rw [pyInt, if_neg (not_lt.mpr h), ratFloor_eq_floor]

/-- Concrete evaluation of a rational floor from the two bracketing bounds. -/
theorem floor_eval {q : ℚ} {n : ℤ} (h1 : (n : ℚ) ≤ q) (h2 : q < n + 1) :
    ⌊q⌋ = n :=
  Int.floor_eq_iff.mpr ⟨h1, by exact_mod_cast h2⟩

/-- Concrete evaluation of `pyInt` on a non-negative rational. -/
theorem pyInt_eval {q : ℚ} {n : ℤ} (h0 : 0 ≤ q) (h1 : (n : ℚ) ≤ q)
    (h2 : q < n + 1) : pyInt q = n := by
  rw [pyInt_eq_floor h0]; exact floor_eval h1 h2

/-! ## Band lemmas for `calculate_aqi` -/

theorem aqi_band1 {x : ℚ} (h0 : 0 ≤ x) (h : x ≤ 12) :
    calculate_aqi x = ⌊x / 12 * 50⌋ := by
  simp only [calculate_aqi]
  rw [if_pos h, pyInt_eq_floor (by positivity)]

theorem aqi_band2 {x : ℚ} (h1 : 12 < x) (h2 : x ≤ 35.4) :
    calculate_aqi x = ⌊(x - 12.1) / (35.4 - 12.1) * (100 - 51) + 51⌋ := by
  simp only [calculate_aqi]
  rw [if_neg (by linarith), if_pos h2, pyInt_eq_floor (by ring_nf; linarith)]

theorem aqi_band3 {x : ℚ} (h1 : 35.4 < x) (h2 : x ≤ 55.4) :
    calculate_aqi x = ⌊(x - 35.5) / (55.4 - 35.5) * (150 - 101) + 101⌋ := by
  simp only [calculate_aqi]
  rw [if_neg (by linarith), if_neg (by linarith), if_pos h2,
    pyInt_eq_floor (by ring_nf; linarith)]

theorem aqi_band4 {x : ℚ} (h1 : 55.4 < x) (h2 : x ≤ 150.4) :
    calculate_aqi x = ⌊(x - 55.5) / (150.4 - 55.5) * (200 - 151) + 151⌋ := by
  simp only [calculate_aqi]
  rw [if_neg (by linarith), if_neg (by linarith), if_neg (by linarith), if_pos h2,
    pyInt_eq_floor (by ring_nf; linarith)]

theorem aqi_band5 {x : ℚ} (h1 : 150.4 < x) (h2 : x ≤ 250.4) :
    calculate_aqi x = ⌊(x - 150.5) / (250.4 - 150.5) * (300 - 201) + 201⌋ := by
  simp only [calculate_aqi]
  rw [if_neg (by linarith), if_neg (by linarith), if_neg (by linarith),
    if_neg (by linarith), if_pos h2, pyInt_eq_floor (by ring_nf; linarith)]

theorem aqi_band6 {x : ℚ} (h1 : 250.4 < x) (h2 : x ≤ 500.4) :
    calculate_aqi x = ⌊(x - 250.5) / (500.4 - 250.5) * (500 - 301) + 301⌋ := by
  simp only [calculate_aqi]
  rw [if_neg (by linarith), if_neg (by linarith), if_neg (by linarith),
    if_neg (by linarith), if_neg (by linarith), if_pos h2,
    pyInt_eq_floor (by ring_nf; linarith)]

theorem aqi_top {x : ℚ} (h : 500.4 < x) : calculate_aqi x = 500 := by
  simp only [calculate_aqi]
  rw [if_neg (by linarith), if_neg (by linarith), if_neg (by linarith),
    if_neg (by linarith), if_neg (by linarith), if_neg (by linarith)]

theorem aqi_bounds1 {x : ℚ} (h0 : 0 ≤ x) (h : x ≤ 12) :
    0 ≤ calculate_aqi x ∧ calculate_aqi x ≤ 50 := by
  rw [aqi_band1 h0 h]
  exact ⟨Int.le_floor.mpr (by push_cast; ring_nf; linarith),
    Int.lt_add_one_iff.mp (Int.floor_lt.mpr (by push_cast; ring_nf; linarith))⟩

theorem aqi_bounds2 {x : ℚ} (h1 : 12 < x) (h2 : x ≤ 35.4) :
    50 ≤ calculate_aqi x ∧ calculate_aqi x ≤ 100 := by
  rw [aqi_band2 h1 h2]
  exact ⟨Int.le_floor.mpr (by push_cast; ring_nf; linarith),
    Int.lt_add_one_iff.mp (Int.floor_lt.mpr (by push_cast; ring_nf; linarith))⟩

theorem aqi_bounds3 {x : ℚ} (h1 : 35.4 < x) (h2 : x ≤ 55.4) :
    100 ≤ calculate_aqi x ∧ calculate_aqi x ≤ 150 := by
  rw [aqi_band3 h1 h2]
  exact ⟨Int.le_floor.mpr (by push_cast; ring_nf; linarith),
    Int.lt_add_one_iff.mp (Int.floor_lt.mpr (by push_cast; ring_nf; linarith))⟩

theorem aqi_bounds4 {x : ℚ} (h1 : 55.4 < x) (h2 : x ≤ 150.4) :
    150 ≤ calculate_aqi x ∧ calculate_aqi x ≤ 200 := by
  rw [aqi_band4 h1 h2]
  exact ⟨Int.le_floor.mpr (by push_cast; ring_nf; linarith),
    Int.lt_add_one_iff.mp (Int.floor_lt.mpr (by push_cast; ring_nf; linarith))⟩

theorem aqi_bounds5 {x : ℚ} (h1 : 150.4 < x) (h2 : x ≤ 250.4) :
    200 ≤ calculate_aqi x ∧ calculate_aqi x ≤ 300 := by
  rw [aqi_band5 h1 h2]
  exact ⟨Int.le_floor.mpr (by push_cast; ring_nf; linarith),
    Int.lt_add_one_iff.mp (Int.floor_lt.mpr (by push_cast; ring_nf; linarith))⟩

theorem aqi_bounds6 {x : ℚ} (h1 : 250.4 < x) (h2 : x ≤ 500.4) :
    300 ≤ calculate_aqi x ∧ calculate_aqi x ≤ 500 := by
  rw [aqi_band6 h1 h2]
  exact ⟨Int.le_floor.mpr (by push_cast; ring_nf; linarith),
    Int.lt_add_one_iff.mp (Int.floor_lt.mpr (by push_cast; ring_nf; linarith))⟩

theorem aqi_bounds {x : ℚ} (h0 : 0 ≤ x) :
    0 ≤ calculate_aqi x ∧ calculate_aqi x ≤ 500 := by
  rcases le_or_lt x 12 with h | h
  · have := aqi_bounds1 h0 h; omega
  rcases le_or_lt x 35.4 with h2 | h2
  · have := aqi_bounds2 h h2; omega
  rcases le_or_lt x 55.4 with h3 | h3
  · have := aqi_bounds3 h2 h3; omega
  rcases le_or_lt x 150.4 with h4 | h4
  · have := aqi_bounds4 h3 h4; omega
  rcases le_or_lt x 250.4 with h5 | h5
  · have := aqi_bounds5 h4 h5; omega
  rcases le_or_lt x 500.4 with h6 | h6
  · have := aqi_bounds6 h5 h6; omega
  · rw [aqi_top h6]; omega

theorem aqi_monotone {x y : ℚ} (hx : 0 ≤ x) (hxy : x ≤ y) :
    calculate_aqi x ≤ calculate_aqi y := by
  have hy : 0 ≤ y := le_trans hx hxy
  rcases le_or_lt y 12 with hy1 | hy1
  · rw [aqi_band1 hx (le_trans hxy hy1), aqi_band1 hy hy1]
    exact Int.floor_mono (by ring_nf; linarith)
  rcases le_or_lt y 35.4 with hy2 | hy2
  · rcases le_or_lt x 12 with hx1 | hx1
    · have b1 := aqi_bounds1 hx hx1
      have b2 := aqi_bounds2 hy1 hy2
      omega
    · rw [aqi_band2 hx1 (le_trans hxy hy2), aqi_band2 hy1 hy2]
      exact Int.floor_mono (by ring_nf; linarith)
  rcases le_or_lt y 55.4 with hy3 | hy3
  · rcases le_or_lt x 12 with hx1 | hx1
    · have b1 := aqi_bounds1 hx hx1
      have b2 := aqi_bounds3 hy2 hy3
      omega
    rcases le_or_lt x 35.4 with hx2 | hx2
    · have b1 := aqi_bounds2 hx1 hx2
      have b2 := aqi_bounds3 hy2 hy3
      omega
    · rw [aqi_band3 hx2 (le_trans hxy hy3), aqi_band3 hy2 hy3]
      exact Int.floor_mono (by ring_nf; linarith)
  rcases le_or_lt y 150.4 with hy4 | hy4
  · rcases le_or_lt x 12 with hx1 | hx1
    · have b1 := aqi_bounds1 hx hx1
      have b2 := aqi_bounds4 hy3 hy4
      omega
    rcases le_or_lt x 35.4 with hx2 | hx2
    · have b1 := aqi_bounds2 hx1 hx2
      have b2 := aqi_bounds4 hy3 hy4
      omega
    rcases le_or_lt x 55.4 with hx3 | hx3
    · have b1 := aqi_bounds3 hx2 hx3
      have b2 := aqi_bounds4 hy3 hy4
      omega
    · rw [aqi_band4 hx3 (le_trans hxy hy4), aqi_band4 hy3 hy4]
      exact Int.floor_mono (by ring_nf; linarith)
  rcases le_or_lt y 250.4 with hy5 | hy5
  · rcases le_or_lt x 12 with hx1 | hx1
    · have b1 := aqi_bounds1 hx hx1
      have b2 := aqi_bounds5 hy4 hy5
      omega
    rcases le_or_lt x 35.4 with hx2 | hx2
    · have b1 := aqi_bounds2 hx1 hx2
      have b2 := aqi_bounds5 hy4 hy5
      omega
    rcases le_or_lt x 55.4 with hx3 | hx3
    · have b1 := aqi_bounds3 hx2 hx3
      have b2 := aqi_bounds5 hy4 hy5
      omega
    rcases le_or_lt x 150.4 with hx4 | hx4
    · have b1 := aqi_bounds4 hx3 hx4
      have b2 := aqi_bounds5 hy4 hy5
      omega
    · rw [aqi_band5 hx4 (le_trans hxy hy5), aqi_band5 hy4 hy5]
      exact Int.floor_mono (by ring_nf; linarith)
  rcases le_or_lt y 500.4 with hy6 | hy6
  · rcases le_or_lt x 12 with hx1 | hx1
    · have b1 := aqi_bounds1 hx hx1
      have b2 := aqi_bounds6 hy5 hy6
      omega
    rcases le_or_lt x 35.4 with hx2 | hx2
    · have b1 := aqi_bounds2 hx1 hx2
      have b2 := aqi_bounds6 hy5 hy6
      omega
    rcases le_or_lt x 55.4 with hx3 | hx3
    · have b1 := aqi_bounds3 hx2 hx3
      have b2 := aqi_bounds6 hy5 hy6
      omega
    rcases le_or_lt x 150.4 with hx4 | hx4
    · have b1 := aqi_bounds4 hx3 hx4
      have b2 := aqi_bounds6 hy5 hy6
      omega
    rcases le_or_lt x 250.4 with hx5 | hx5
    · have b1 := aqi_bounds5 hx4 hx5
      have b2 := aqi_bounds6 hy5 hy6
      omega
    · rw [aqi_band6 hx5 (le_trans hxy hy6), aqi_band6 hy5 hy6]
      exact Int.floor_mono (by ring_nf; linarith)
  · rw [aqi_top hy6]
    exact (aqi_bounds hx).2

theorem health_ne_beyond {a : ℤ} (h : a ≤ 500) :
    get_health_level a ≠ "Beyond AQI Scale" := by
  unfold get_health_level
  split_ifs <;> decide

/-- C6: `calculate_aqi` is monotonically non-decreasing on non-negative
dust densities, with `calculate_aqi 0 = 0`, `calculate_aqi 12 ∈ [0, 50]`,
`calculate_aqi 500.4 = 500`, and every density above 500.4 clamped to 500. -/
theorem C6_aqi_monotone_and_points :
    (∀ x y : ℚ, 0 ≤ x → x ≤ y → calculate_aqi x ≤ calculate_aqi y) ∧
    calculate_aqi 0 = 0 ∧
    (0 ≤ calculate_aqi 12 ∧ calculate_aqi 12 ≤ 50) ∧
    calculate_aqi 500.4 = 500 ∧
    (∀ d : ℚ, 500.4 < d → calculate_aqi d = 500) := by
  refine ⟨fun x y hx hxy => aqi_monotone hx hxy, ?_, ?_, ?_, fun d hd => aqi_top hd⟩
  · rw [aqi_band1 le_rfl (by norm_num)]
    norm_num
  · exact aqi_bounds1 (by norm_num) (by norm_num)
  · rw [aqi_band6 (by norm_num) (by norm_num)]
    have h : ((500.4 : ℚ) - 250.5) / (500.4 - 250.5) * (500 - 301) + 301 = 500 := by
      norm_num
    rw [h]
    exact floor_eval (by norm_num) (by norm_num)

/-- Witness for C6 at concrete inputs. -/
theorem C6_witness :
    ((0 : ℚ) ≤ 3 ∧ (3 : ℚ) ≤ 7 ∧ calculate_aqi 3 ≤ calculate_aqi 7) ∧
    ((500.4 : ℚ) < 600 ∧ calculate_aqi 600 = 500) :=
  ⟨⟨by norm_num, by norm_num,
      C6_aqi_monotone_and_points.1 3 7 (by norm_num) (by norm_num)⟩,
    by norm_num, C6_aqi_monotone_and_points.2.2.2.2 600 (by norm_num)⟩

/-- C10: on the non-negative densities the dust pipeline can produce, the
AQI stays in [0, 500], so the outer band label is unreachable through
`read_dust_sensor`. -/
theorem C10_aqi_in_range :
    (∀ d : ℚ, 0 ≤ d → 0 ≤ calculate_aqi d ∧ calculate_aqi d ≤ 500) ∧
    (∀ vo : ℕ, (read_dust_sensor vo).Health_Level ≠ "Beyond AQI Scale") := by
  constructor
  · exact fun d hd => aqi_bounds hd
  · intro vo
    have hd : (0 : ℚ) ≤ max (170 * (((vo : ℚ) / 4095) * 5) - 0.1) 0 :=
      le_max_right _ _
    simp only [read_dust_sensor]
    exact health_ne_beyond (aqi_bounds hd).2

/-- Witness for C10 at concrete inputs. -/
theorem C10_witness :
    ((0 : ℚ) ≤ 3 ∧ 0 ≤ calculate_aqi 3 ∧ calculate_aqi 3 ≤ 500) ∧
    (read_dust_sensor 0).Health_Level ≠ "Beyond AQI Scale" :=
  ⟨⟨by norm_num, C10_aqi_in_range.1 3 (by norm_num)⟩, C10_aqi_in_range.2 0⟩

/-- C1: decoding the 23-field compact `send_array` built by the sender's
main loop with the receiver's `convert_compact_to_full` reconstructs
exactly the packet the sender assembled: every group, parameter, value and
re-attached unit string is identical. -/
theorem C1_encode_decode_roundtrip (rtc : RtcTime) (mq : MqData) (uv : UvData)
    (bme : BmeData) (dust : DustData) :
    convert_compact_to_full (mkSendArray rtc mq uv bme dust) =
      some (mkSensorPacket rtc mq uv bme dust) := rfl

/-- C2: the CSV header written by `create_new_csv` has 23 columns ending in
`Dust_health_level`, but `log_to_csv` passes 23 values to a format string
with only 22 placeholders, so every data row has 22 fields and ends with
the AQI cell — the health level value (here `"Good"`) is dropped. -/
theorem C2_csv_row_drops_health_level :
    csvFieldCount csv_header = 23 ∧
    (∀ p : SensorPacket, (log_to_csv_args p).length = 23) ∧
    csvFieldCount (log_row packet0) = 22 ∧
    (splitCommas (log_row packet0).toList).getLast? = some ("0\n".toList) ∧
    valCell packet0.dust_sensor.health_level.value = "Good" :=
  ⟨by decide, fun _ => rfl, by decide, by decide, rfl⟩

/-- C3 counterexample: an unparsable driver string makes `read_bme280`
propagate the parse failure instead of returning a zero-defaulted group. -/
theorem C3_counterexample : read_bme280 "xC" "1013.2hPa" 24 = none := rfl

/-- C3 (amended): the gas reader is total and substitutes 0 for the
ratio when the sensor voltage is non-positive, but `read_bme280` performs
no error handling: it returns a group exactly when both driver strings
parse, and propagates the failure otherwise. -/
theorem C3_readers_error_behaviour :
    (∀ a9 a135 : ℕ,
      (((a9 : ℚ) / 4095) * 3.3 ≤ 0 → (read_sensors a9 a135).mq9.RsR0 = 0) ∧
      (((a135 : ℚ) / 4095) * 3.3 ≤ 0 → (read_sensors a9 a135).mq135.RsR0 = 0)) ∧
    (∀ (v0 v1 : String) (h : ℚ),
      (read_bme280 v0 v1 h).isSome = true ↔
        (pyFloat (sliceDropRight v0 1)).isSome = true ∧
        (pyFloat (sliceDropRight v1 3)).isSome = true) := by
  constructor
  · intro a9 a135
    constructor
    · intro h
      simp only [read_sensors]
      rw [if_neg (not_lt.mpr h)]
      norm_num
    · intro h
      simp only [read_sensors]
      rw [if_neg (not_lt.mpr h)]
      norm_num
  · intro v0 v1 h
    rcases e1 : pyFloat (sliceDropRight v0 1) with _ | t <;>
      rcases e2 : pyFloat (sliceDropRight v1 3) with _ | p <;>
        simp [read_bme280, e1, e2]

/-- Witness for C3 at concrete inputs. -/
theorem C3_witness :
    (((0 : ℕ) : ℚ) / 4095 * 3.3 ≤ 0 ∧ (read_sensors 0 5).mq9.RsR0 = 0) ∧
    ((read_bme280 "25.6C" "1013.2hPa" 24).isSome = true ↔
      (pyFloat (sliceDropRight "25.6C" 1)).isSome = true ∧
      (pyFloat (sliceDropRight "1013.2hPa" 3)).isSome = true) :=
  ⟨⟨by norm_num, (C3_readers_error_behaviour.1 0 5).1 (by norm_num)⟩,
    C3_readers_error_behaviour.2 "25.6C" "1013.2hPa" 24⟩

/-- C4 counterexample: with zero measured voltage on the MQ-135, the
normalized ratio is 0, not the claimed 1.0 fallback. -/
theorem C4_counterexample :
    (read_sensors 0 0).mq135.RsR0 = 0 ∧ (read_sensors 0 0).mq135.RsR0 ≠ 1 := by
  constructor <;> norm_num [read_sensors]

/-- C4 (amended): when the MQ-135 sensor voltage is ≤ 0, the sensor
resistance is taken as 0 and the normalized ratio falls back to 0. -/
theorem C4_mq135_zero_voltage_fallback (a9 a135 : ℕ)
    (h : ((a135 : ℚ) / 4095) * 3.3 ≤ 0) :
    (read_sensors a9 a135).mq135.RsR0 = 0 := by
  simp only [read_sensors]
  rw [if_neg (not_lt.mpr h)]
  norm_num

/-- Witness for C4 at concrete inputs. -/
theorem C4_witness :
    ((0 : ℕ) : ℚ) / 4095 * 3.3 ≤ 0 ∧ (read_sensors 7 0).mq135.RsR0 = 0 :=
  ⟨by norm_num, C4_mq135_zero_voltage_fallback 7 0 (by norm_num)⟩

theorem mq9_eq_stepLookup (r : ℚ) (gas : String) :
    calculate_concentration_mq9 r gas =
      stepLookup (mq9Bands gas).1 (mq9Bands gas).2 r := by
  by_cases h1 : gas = "LPG"
  · subst h1; simp [calculate_concentration_mq9, mq9Bands, stepLookup]
  by_cases h2 : gas = "CO"
  · subst h2; simp [calculate_concentration_mq9, mq9Bands, stepLookup]
  by_cases h3 : gas = "CH4"
  · subst h3; simp [calculate_concentration_mq9, mq9Bands, stepLookup]
  · simp [calculate_concentration_mq9, mq9Bands, stepLookup, h1, h2, h3]

theorem mq135_eq_stepLookup (r : ℚ) (gas : String) :
    calculate_concentration_mq135 r gas =
      stepLookup (mq135Bands gas).1 (mq135Bands gas).2 r := by
  by_cases h1 : gas = "CO2"
  · subst h1; simp [calculate_concentration_mq135, mq135Bands, stepLookup]
  by_cases h2 : gas = "CO"
  · subst h2; simp [calculate_concentration_mq135, mq135Bands, stepLookup]
  by_cases h3 : gas = "NH4"
  · subst h3; simp [calculate_concentration_mq135, mq135Bands, stepLookup]
  by_cases h4 : gas = "Ethanol"
  · subst h4; simp [calculate_concentration_mq135, mq135Bands, stepLookup]
  by_cases h5 : gas = "Toluene"
  · subst h5; simp [calculate_concentration_mq135, mq135Bands, stepLookup]
  by_cases h6 : gas = "Acetone"
  · subst h6; simp [calculate_concentration_mq135, mq135Bands, stepLookup]
  · simp [calculate_concentration_mq135, mq135Bands, stepLookup, h1, h2, h3, h4, h5, h6]

/-- C5: both concentration functions agree with the documented band
tables under exclusive-lower-bound lookup semantics (so each band's value
is an exact constant, with no interpolation); a ratio exactly equal to a
threshold fails the strict comparison and is assigned the next
(higher-concentration) band; unsupported gas names yield 0. -/
theorem C5_concentration_step_tables :
    (∀ (r : ℚ) (gas : String), calculate_concentration_mq9 r gas =
        stepLookup (mq9Bands gas).1 (mq9Bands gas).2 r) ∧
    (∀ (r : ℚ) (gas : String), calculate_concentration_mq135 r gas =
        stepLookup (mq135Bands gas).1 (mq135Bands gas).2 r) ∧
    (∀ (t : ℚ) (v : ℤ) (rest : List (ℚ × ℤ)) (base : ℤ),
        stepLookup ((t, v) :: rest) base t = stepLookup rest base t) ∧
    (∀ (r : ℚ) (gas : String),
        gas ≠ "LPG" ∧ gas ≠ "CO" ∧ gas ≠ "CH4" →
        calculate_concentration_mq9 r gas = 0) ∧
    (∀ (r : ℚ) (gas : String),
        gas ≠ "CO2" ∧ gas ≠ "CO" ∧ gas ≠ "NH4" ∧ gas ≠ "Ethanol" ∧
          gas ≠ "Toluene" ∧ gas ≠ "Acetone" →
        calculate_concentration_mq135 r gas = 0) := by
  refine ⟨mq9_eq_stepLookup, mq135_eq_stepLookup, ?_, ?_, ?_⟩
  · intro t v rest base
    simp [stepLookup]
  · intro r gas h
    obtain ⟨h1, h2, h3⟩ := h
    simp [calculate_concentration_mq9, h1, h2, h3]
  · intro r gas h
    obtain ⟨h1, h2, h3, h4, h5, h6⟩ := h
    simp [calculate_concentration_mq135, h1, h2, h3, h4, h5, h6]

/-- Witness for C5 at concrete inputs. -/
theorem C5_witness :
    calculate_concentration_mq9 1.8 "LPG" =
        stepLookup (mq9Bands "LPG").1 (mq9Bands "LPG").2 1.8 ∧
    (("Hydrogen" : String) ≠ "LPG" ∧ ("Hydrogen" : String) ≠ "CO" ∧
        ("Hydrogen" : String) ≠ "CH4") ∧
    calculate_concentration_mq9 2 "Hydrogen" = 0 :=
  ⟨C5_concentration_step_tables.1 1.8 "LPG", by decide,
    C5_concentration_step_tables.2.2.2.1 2 "Hydrogen" (by decide)⟩

/-- C7 counterexample: an AQI of 451 is labelled `"Hazardous"` by the
code, not the claimed outer band `"Beyond AQI Scale"`. -/
theorem C7_counterexample :
    get_health_level 451 = "Hazardous" ∧
    get_health_level 451 ≠ "Beyond AQI Scale" := by
  constructor <;> decide

/-- C7 (amended): `get_health_level` maps AQI values to bands at the fixed
thresholds 50, 100, 150, 200, 300, 500; values in (300, 500] — including
451 — are `"Hazardous"`, and `"Beyond AQI Scale"` only appears above 500. -/
theorem C7_health_level_bands : ∀ a : ℤ,
    (a ≤ 50 → get_health_level a = "Good") ∧
    (50 < a ∧ a ≤ 100 → get_health_level a = "Moderate") ∧
    (100 < a ∧ a ≤ 150 → get_health_level a = "Unhealthy for Sensitive Groups") ∧
    (150 < a ∧ a ≤ 200 → get_health_level a = "Unhealthy") ∧
    (200 < a ∧ a ≤ 300 → get_health_level a = "Very Unhealthy") ∧
    (300 < a ∧ a ≤ 500 → get_health_level a = "Hazardous") ∧
    (500 < a → get_health_level a = "Beyond AQI Scale") := by
  intro a
  refine ⟨?_, ?_, ?_, ?_, ?_, ?_, ?_⟩ <;>
    (intro h; unfold get_health_level; split_ifs <;> first | rfl | omega)

/-- Witness for C7 at a concrete input. -/
theorem C7_witness :
    (300 < (451 : ℤ) ∧ (451 : ℤ) ≤ 500) ∧ get_health_level 451 = "Hazardous" :=
  ⟨by decide, (C7_health_level_bands 451).2.2.2.2.2.1 (by decide)⟩

/-- C8 counterexample: after a failed append the availability flag is
still true and the very next call attempts the write again — the logger
does not degrade to an unavailable state. -/
theorem C8_counterexample :
    (log_to_csv ⟨true, some "logs.csv"⟩ false packet0).raised = false ∧
    (log_to_csv ⟨true, some "logs.csv"⟩ false packet0).state.sd_available = true ∧
    (log_to_csv (log_to_csv ⟨true, some "logs.csv"⟩ false packet0).state true
        packet0).attempted = true :=
  ⟨rfl, rfl, rfl⟩

/-- C8 (amended): a failure inside `log_to_csv` is caught and never
propagates, but the module state is left unchanged on every path, and a
call skips the append exactly when `sd_available` is already false (set
only at initialization) — a failed append does not disable later ones. -/
theorem C8_append_failure_behaviour :
    ∀ (st : SdState) (writeOk : Bool) (p : SensorPacket),
    (log_to_csv st writeOk p).raised = false ∧
    (log_to_csv st writeOk p).state = st ∧
    ((log_to_csv st writeOk p).attempted = true ↔ st.sd_available = true) := by
  intro st w p
  cases hsd : st.sd_available <;> cases w <;> simp [log_to_csv, hsd]

/-- C9 counterexample: with all eight UV samples at full scale the reader
returns `Voltage = 3.3` V, but the assembled packet's uv voltage leaf is
`round(4095 * 0.0008, 2) = 3.28` — not the reader's voltage rounded to two
decimals. -/
theorem C9_counterexample :
    (mkSensorPacket rtc0 (read_sensors 0 0) (read_uv_sensor fun _ => 4095)
        bme0 (read_dust_sensor 4095)).uv_sensor.voltage.value ≠
      Val.num (round2 ((read_uv_sensor fun _ => 4095).Voltage)) := by
  have h1 : (read_uv_sensor fun _ => 4095).Raw_ADC = 4095 := by
    norm_num [read_uv_sensor, List.range_succ]
  have h2 : (read_uv_sensor fun _ => 4095).Voltage = 3.3 := by
    norm_num [read_uv_sensor, List.range_succ]
  have h3 : round2 ((4095 : ℚ) * 0.0008) = 3.28 := by
    have hf : ⌊(4095 * 0.0008 * 100 : ℚ)⌋ = 327 :=
      floor_eval (by norm_num) (by norm_num)
    simp only [round2, roundHalfEven, ratFloor_eq_floor, hf]
    norm_num
  have h4 : round2 (3.3 : ℚ) = 3.3 := by
    have hf : ⌊(3.3 * 100 : ℚ)⌋ = 330 := floor_eval (by norm_num) (by norm_num)
    simp only [round2, roundHalfEven, ratFloor_eq_floor, hf]
    norm_num
  simp only [mkSensorPacket, h1, h2, h3, h4]
  intro hcontra
  rw [Val.num.injEq] at hcontra
  norm_num at hcontra

/-- C9 (amended): the assembled packet wraps each reader output in a
`(value, unit)` leaf with the group's fixed unit; the six float leaves
(uv intensity, uv index, temperature, pressure, humidity, dust density)
are rounded to two decimals, the counts, concentrations, AQI and health
label pass through unrounded (the uv raw ADC average is a float and is
not rounded), and the two voltage leaves are recomputed from the raw ADC
with the constants 0.0008 and 1/820, which differ from the readers'
3.3/4095 and 5/4095. -/
theorem C9_packet_leaves (rtc : RtcTime) (a9 a135 : ℕ) (uvAdc : ℕ → ℕ)
    (bme : BmeData) (vd : ℕ) :
    let mq := read_sensors a9 a135
    let uv := read_uv_sensor uvAdc
    let dust := read_dust_sensor vd
    let p := mkSensorPacket rtc mq uv bme dust
    p.rtc.date = Val.str (rtc_date rtc) ∧
    p.rtc.time = Val.str (rtc_time rtc) ∧
    p.mq9.LPG = { value := Val.num (mq.mq9.LPG : ℚ), unit := "ppm" } ∧
    p.mq9.CO = { value := Val.num (mq.mq9.CO : ℚ), unit := "ppm" } ∧
    p.mq9.CH4 = { value := Val.num (mq.mq9.CH4 : ℚ), unit := "ppm" } ∧
    p.mq135.CO2 = { value := Val.num (mq.mq135.CO2 : ℚ), unit := "ppm" } ∧
    p.mq135.CO = { value := Val.num (mq.mq135.CO : ℚ), unit := "ppm" } ∧
    p.mq135.alcohol = { value := Val.num (mq.mq135.Ethanol : ℚ), unit := "ppm" } ∧
    p.mq135.NH4 = { value := Val.num (mq.mq135.NH4 : ℚ), unit := "ppm" } ∧
    p.mq135.toluene = { value := Val.num (mq.mq135.Toluene : ℚ), unit := "ppm" } ∧
    p.mq135.acetone = { value := Val.num (mq.mq135.Acetone : ℚ), unit := "ppm" } ∧
    p.uv_sensor.raw_adc = { value := Val.num uv.Raw_ADC, unit := "counts" } ∧
    p.uv_sensor.voltage =
      { value := Val.num (round2 (uv.Raw_ADC * 0.0008)), unit := "V" } ∧
    p.uv_sensor.uv_intensity =
      { value := Val.num (round2 uv.UV_Intensity), unit := "mW/cm²" } ∧
    p.uv_sensor.uv_index =
      { value := Val.num (round2 uv.UV_Index), unit := "index" } ∧
    p.bme280.temperature =
      { value := Val.num (round2 bme.Temperature), unit := "°C" } ∧
    p.bme280.pressure =
      { value := Val.num (round2 bme.Pressure), unit := "hPa" } ∧
    p.bme280.humidity =
      { value := Val.num (round2 bme.Humidity), unit := "%" } ∧
    p.dust_sensor.raw_adc =
      { value := Val.num (dust.Raw_ADC : ℚ), unit := "counts" } ∧
    p.dust_sensor.voltage =
      { value := Val.num (round2 ((dust.Raw_ADC : ℚ) * (1 / 820))), unit := "V" } ∧
    p.dust_sensor.dust_density =
      { value := Val.num (round2 dust.Dust_Density), unit := "µg/m³" } ∧
    p.dust_sensor.AQI = { value := Val.num (dust.AQI : ℚ), unit := "AQI" } ∧
    p.dust_sensor.health_level =
      { value := Val.str dust.Health_Level, unit := "" } ∧
    (0.0008 : ℚ) ≠ 3.3 / 4095 ∧
    ((1 : ℚ) / 820) ≠ 5 / 4095 := by
  refine ⟨rfl, rfl, rfl, rfl, rfl, rfl, rfl, rfl, rfl, rfl, rfl, rfl, rfl,
    rfl, rfl, rfl, rfl, rfl, rfl, rfl, rfl, rfl, rfl, ?_, ?_⟩ <;> norm_num
